import Mathlib

/-!
Shallow embedding of two pyfa GUI modules:

* `src/graphs/gui/frame.py` — `GraphFrame`, in particular its `draw`
  method (iteration over source/target pairs, color and line-style
  resolution, y-axis range padding, legend creation) and its event
  handlers (cache clearing and redraw sequencing).
* `src/gui/implantView.py` — `ImplantView`, a CRUD list view over the
  implants of a fit (populate/sort on fit change, add, remove, toggle).

Python floats are modelled as rationals (`ℚ`); the literal `0.05` is
rendered as `1/20`.  External collaborators (the `BASE_COLORS`,
`LIGHTNESSES` and `STYLES` dictionaries from `graphs.style`, the
`hsl_to_hsv`/`hsv_to_rgb` conversions, the view's `getPlotPoints`, and
the fitting service) are parameters of an environment record: the code
under verification only looks keys up in them and threads their results
through, so they stay abstract.  A call that may raise is modelled as an
`Option` result, `none` meaning an exception was raised.
-/

namespace PyfaGraph

/-- An HSL (or HSV/RGB, as conversions see fit) color triple. -/
abbrev Color : Type := ℚ × ℚ × ℚ

/-- Entry of the `BASE_COLORS` dictionary: carries an `hsl` color. -/
structure ColorData where
  hsl : Color
deriving DecidableEq, Repr

/-- Entry of the `LIGHTNESSES` dictionary: carries a lightness-adjusting
function `func` applied to an HSL color. -/
structure LightnessData where
  func : Color → Color

/-- Entry of the `STYLES` dictionary: carries the matplotlib line-style
spec `mplSpec`. -/
structure StyleData where
  mplSpec : String
deriving DecidableEq, Repr

/-- A source item from the control panel (a fit wrapper): has a
`colorID` key into `BASE_COLORS` plus names used for labels. -/
structure SourceItem where
  colorID : String
  name : String
  shortName : String
deriving DecidableEq, Repr

/-- A target item from the control panel: has `lightnessID` and
`lineStyleID` keys into `LIGHTNESSES` and `STYLES`. -/
structure TargetItem where
  lightnessID : String
  lineStyleID : String
  name : String
  shortName : String
deriving DecidableEq, Repr

/-- Everything `GraphFrame.draw` reads from its collaborators: the three
style dictionaries (partial maps), the two color conversions, the
control panel state, and the view's `getPlotPoints` (where `none`
models a raised exception). -/
structure DrawEnv where
  baseColors : String → Option ColorData
  lightnesses : String → Option LightnessData
  styles : String → Option StyleData
  hslToHsv : Color → Color
  hsvToRgb : Color → Color
  hasTargets : Bool
  sources : List SourceItem
  targets : List TargetItem
  getPlotPoints : SourceItem → Option TargetItem → Option (List ℚ × List ℚ)
  showY0 : Bool
  showLegend : Bool

/-- The list of (source, target) pairs `draw` iterates over:
`itertools.product(sources, targets)` when the view has targets,
otherwise each source paired with `None`. -/
def iterList (env : DrawEnv) : List (SourceItem × Option TargetItem) :=
  if env.hasTargets then
    env.sources.flatMap (fun s => env.targets.map (fun t => (s, some t)))
  else
    env.sources.map (fun s => (s, none))

/-- The line-style resolution block of `draw` (frame.py lines 267-289):
look `source.colorID` up in `BASE_COLORS`; when a target is present,
adjust the color by the `LIGHTNESSES` entry and look the style up in
`STYLES`; convert via `hsl_to_hsv` then `hsv_to_rgb`.  A missed lookup
(Python `KeyError`, answered by `continue`) is `none`. -/
def resolveStyle (env : DrawEnv) (source : SourceItem) (target : Option TargetItem) :
    Option (Color × String) :=
  match env.baseColors source.colorID with
  | none => none
  | some colorData =>
    match target with
    | none => some (env.hsvToRgb (env.hslToHsv colorData.hsl), "solid")
    | some tgt =>
      match env.lightnesses tgt.lightnessID with
      | none => none
      | some lightnessData =>
        match env.styles tgt.lineStyleID with
        | none => none
        | some lineStyleData =>
          some (env.hsvToRgb (env.hslToHsv (lightnessData.func colorData.hsl)),
            lineStyleData.mplSpec)

/-- One `subplot.plot` call: point data, resolved color and line style,
and whether the single-point marker variant was used. -/
structure PlotCmd where
  xs : List ℚ
  ys : List ℚ
  color : Color
  lineStyle : String
  marker : Bool
deriving DecidableEq, Repr

/-- A legend entry recorded in `lineData`: color, line style, label. -/
abbrev LineDatum : Type := Color × String × String

/-- The label recorded for a pair: `source.shortName`, or
`'{} vs {}'.format(source.shortName, target.shortName)`. -/
def lineLabel (source : SourceItem) (target : Option TargetItem) : String :=
  match target with
  | none => source.shortName
  | some tgt => source.shortName ++ " vs " ++ tgt.shortName

/-- Mutable state of the plotting loop in `draw`: running y-minimum and
y-maximum (`None` until first data when `showY0` is off), plots issued,
and the `lineData` legend list. -/
structure LoopState where
  minY : Option ℚ
  maxY : Option ℚ
  plots : List PlotCmd
  lineData : List LineDatum
deriving DecidableEq, Repr

/-- Update of `min_y`: `min_y_this = min(ys, default=None)`; if `min_y` is
`None` take `min_y_this`, else combine when `min_y_this` is not `None`. -/
def updMin (cur : Option ℚ) (ys : List ℚ) : Option ℚ :=
  match cur, ys.min? with
  | none, v => v
  | some m, none => some m
  | some m, some v => some (min m v)

/-- Update of `max_y`, symmetric to `updMin`. -/
def updMax (cur : Option ℚ) (ys : List ℚ) : Option ℚ :=
  match cur, ys.max? with
  | none, v => v
  | some m, none => some m
  | some m, some v => some (max m v)

/-- The `for source, target in iterList` loop of `draw`.  A style miss
skips to the next pair (`continue`); a raised `getPlotPoints` hits the
`except` clause, which returns immediately — signalled by the `true`
flag with the state accumulated so far. -/
def drawLoop (env : DrawEnv) :
    List (SourceItem × Option TargetItem) → LoopState → LoopState × Bool
  | [], st => (st, false)
  | (source, target) :: rest, st =>
    match resolveStyle env source target with
    | none => drawLoop env rest st
    | some (color, lineStyle) =>
      match env.getPlotPoints source target with
      | none => (st, true)
      | some (xs, ys) =>
        drawLoop env rest
          { minY := updMin st.minY ys
            maxY := updMax st.maxY ys
            plots := st.plots ++
              [{ xs := xs, ys := ys, color := color, lineStyle := lineStyle,
                 marker := xs.length == 1 && ys.length == 1 }]
            lineData := st.lineData ++ [(color, lineStyle, lineLabel source target)] }

/-- The y-range padding of `draw` (frame.py lines 334-343), verbatim:
extend each side by `y_range * 0.05`; if the bounds are still equal,
`min_y -= min_y * 0.05` then `max_y += min_y * 0.05` (the *updated*
`min_y`); if they are *still* equal, pad by the constant 5. -/
def padRange (minY maxY : ℚ) : ℚ × ℚ :=
  let yRange := maxY - minY
  let minY1 := minY - yRange * (1/20)
  let maxY1 := maxY + yRange * (1/20)
  let p :=
    if minY1 = maxY1 then
      let minY2 := minY1 - minY1 * (1/20)
      (minY2, maxY1 + minY2 * (1/20))
    else (minY1, maxY1)
  if p.1 = p.2 then (p.1 - 5, p.2 + 5) else p

/-- The observable outcome of one `draw` call: plots issued, legend
data accumulated, the `set_ylim` argument (`none` when the early return
fired and `set_ylim` was never reached), the legend actually created
(`none` when not created), and whether the canvas was redrawn. -/
structure DrawResult where
  plots : List PlotCmd
  lineData : List LineDatum
  ylim : Option (ℚ × ℚ)
  legendShown : Option (List LineDatum)
  canvasDrawn : Bool
deriving DecidableEq, Repr

/-- The loop state as `draw` initializes it: running min/max start at 0
when `showY0` is set, else at `None`; no plots, no line data. -/
def initLoopState (env : DrawEnv) : LoopState :=
  { minY := if env.showY0 then some 0 else none
    maxY := if env.showY0 then some 0 else none
    plots := []
    lineData := [] }

/-- Method `GraphFrame.draw` (frame.py lines 246-359): run the plotting loop
over `iterList`; on an exception redraw the canvas and return;
otherwise default `None` bounds to 0, pad, `set_ylim`, and create a
legend when there is line data and `showLegend` is set. -/
def draw (env : DrawEnv) : DrawResult :=
  match drawLoop env (iterList env) (initLoopState env) with
  | (st, true) =>
    { plots := st.plots, lineData := st.lineData, ylim := none,
      legendShown := none, canvasDrawn := true }
  | (st, false) =>
    let lim := padRange (st.minY.getD 0) (st.maxY.getD 0)
    { plots := st.plots
      lineData := st.lineData
      ylim := some lim
      legendShown :=
        if 0 < st.lineData.length ∧ env.showLegend then some st.lineData else none
      canvasDrawn := true }

/-- The plot a pair contributes when its style resolves and its
`getPlotPoints` call succeeds, `none` otherwise. -/
def styledPlot (env : DrawEnv) (p : SourceItem × Option TargetItem) : Option PlotCmd :=
  match resolveStyle env p.1 p.2, env.getPlotPoints p.1 p.2 with
  | some (color, lineStyle), some (xs, ys) =>
    some { xs := xs, ys := ys, color := color, lineStyle := lineStyle,
           marker := xs.length == 1 && ys.length == 1 }
  | _, _ => none

/-- The legend entry a pair contributes when its style resolves and its
`getPlotPoints` call succeeds, `none` otherwise. -/
def styledEntry (env : DrawEnv) (p : SourceItem × Option TargetItem) : Option LineDatum :=
  match resolveStyle env p.1 p.2, env.getPlotPoints p.1 p.2 with
  | some (color, lineStyle), some _ =>
    some (color, lineStyle, lineLabel p.1 p.2)
  | _, _ => none

/-! ### Event handlers of `GraphFrame`

Each handler is modelled as the trace of externally visible actions it
performs, in source order.  `event.Skip()` (propagation to other
handlers) is `evtSkip`; calls into the control panel are `panel`;
`clearCache` carries the `GraphCacheCleanupReason` and the `extraData`
argument (`none` when omitted); `drawCall` is the final `self.draw()`. -/

/-- The `GraphCacheCleanupReason` constants used by the handlers. -/
inductive CacheReason where
  | fitChanged
  | fitRemoved
  | profileChanged
  | profileRemoved
  | resistModeChanged
  | optionChanged
  | graphSwitched
deriving DecidableEq, Repr

/-- Which control-panel method a handler calls. -/
inductive PanelCall where
  | onFitRenamed
  | onFitChanged
  | onFitRemoved
  | onProfileRenamed
  | onProfileChanged
  | onProfileRemoved
  | onResistModeChanged
  | panelFreeze
  | panelThaw
  | refreshAxeLabels
  | refreshColumns
  | updateControls
deriving DecidableEq, Repr

/-- An externally visible action of a `GraphFrame` event handler. -/
inductive GFAction where
  | evtSkip
  | clearCache (reason : CacheReason) (extraData : Option ℕ)
  | panel (call : PanelCall)
  | saveSetting
  | drawCall
deriving DecidableEq, Repr

/-- Handler `GraphFrame.OnFitRenamed`. -/
def onFitRenamedHandler : List GFAction :=
  [.evtSkip, .panel .onFitRenamed, .drawCall]

/-- Handler `GraphFrame.OnFitChanged`: one `clearCache` per `event.fitIDs`
entry, then the panel call, then `draw()`. -/
def onFitChangedHandler (fitIDs : List ℕ) : List GFAction :=
  .evtSkip :: fitIDs.map (fun fid => .clearCache .fitChanged (some fid)) ++
    [.panel .onFitChanged, .drawCall]

/-- Handler `GraphFrame.OnFitRemoved`. -/
def onFitRemovedHandler (fitID : ℕ) : List GFAction :=
  [.evtSkip, .clearCache .fitRemoved (some fitID), .panel .onFitRemoved, .drawCall]

/-- Handler `GraphFrame.OnProfileRenamed`. -/
def onProfileRenamedHandler : List GFAction :=
  [.evtSkip, .panel .onProfileRenamed, .drawCall]

/-- Handler `GraphFrame.OnProfileChanged`. -/
def onProfileChangedHandler (profileID : ℕ) : List GFAction :=
  [.evtSkip, .clearCache .profileChanged (some profileID), .panel .onProfileChanged,
   .drawCall]

/-- Handler `GraphFrame.OnProfileRemoved`. -/
def onProfileRemovedHandler (profileID : ℕ) : List GFAction :=
  [.evtSkip, .clearCache .profileRemoved (some profileID), .panel .onProfileRemoved,
   .drawCall]

/-- Handler `GraphFrame.OnResistModeChanged`: one `clearCache` per
`event.fitIDs` entry. -/
def onResistModeChangedHandler (fitIDs : List ℕ) : List GFAction :=
  .evtSkip :: fitIDs.map (fun fid => .clearCache .resistModeChanged (some fid)) ++
    [.panel .onResistModeChanged, .drawCall]

/-- Handler `GraphFrame.OnGraphOptionChanged`: freeze, optional label/column
refreshes, thaw, one ID-less `clearCache`, then `draw()`. -/
def onGraphOptionChangedHandler (refreshAxes refreshCols : Bool) : List GFAction :=
  [.evtSkip, .panel .panelFreeze] ++
    (if refreshAxes then [.panel .refreshAxeLabels] else []) ++
    (if refreshCols then [.panel .refreshColumns] else []) ++
    [.panel .panelThaw, .clearCache .optionChanged none, .drawCall]

/-- Handler `GraphFrame.OnGraphSwitched`: save the selected graph setting, one
ID-less `clearCache`, update controls, `draw()`, and only then
`event.Skip()`. -/
def onGraphSwitchedHandler : List GFAction :=
  [.saveSetting, .clearCache .graphSwitched none, .panel .updateControls, .drawCall,
   .evtSkip]

/-- Is this action pure event propagation (`event.Skip()`)? -/
def isSkip : GFAction → Bool
  | .evtSkip => true
  | _ => false

/-- The cache-clearing calls of a handler trace, in order. -/
def cacheClears : List GFAction → List (CacheReason × Option ℕ)
  | [] => []
  | .clearCache r d :: rest => (r, d) :: cacheClears rest
  | .evtSkip :: rest => cacheClears rest
  | .panel _ :: rest => cacheClears rest
  | .saveSetting :: rest => cacheClears rest
  | .drawCall :: rest => cacheClears rest

/-- A handler trace ends in a redraw, with all its cache clears before
it: the trace splits around a `drawCall` such that every `clearCache`
(exactly `clears`) sits before the split and only event propagation
follows it. -/
def handlerOk (t : List GFAction) (clears : List (CacheReason × Option ℕ)) : Prop :=
  ∃ pre post, t = pre ++ GFAction.drawCall :: post ∧
    cacheClears pre = clears ∧ cacheClears t = clears ∧
    ∀ a ∈ post, isSkip a = true

/-! ### Concrete instances used to witness the theorems below -/

/-- A source whose `colorID` is present in the example dictionaries. -/
def srcRed : SourceItem :=
  { colorID := "red", name := "Test Fit", shortName := "Test" }

/-- A source whose `colorID` misses the example dictionaries. -/
def srcPink : SourceItem :=
  { colorID := "pink", name := "Other Fit", shortName := "Other" }

/-- A target whose IDs are present in the example dictionaries. -/
def tgtBright : TargetItem :=
  { lightnessID := "bright", lineStyleID := "dash", name := "Target Fit",
    shortName := "Tgt" }

/-- Example `BASE_COLORS`: only the key `"red"` is present. -/
def colorsOnlyRed : String → Option ColorData :=
  fun k => if k = "red" then some { hsl := (0, 1, 1/2) } else none

/-- Example `LIGHTNESSES`: only the key `"bright"` is present. -/
def lightnessesOnlyBright : String → Option LightnessData :=
  fun k => if k = "bright" then some { func := fun c => c } else none

/-- Example `STYLES`: only the key `"dash"` is present. -/
def stylesOnlyDash : String → Option StyleData :=
  fun k => if k = "dash" then some { mplSpec := "dashed" } else none

/-- Environment with a single targetless source whose only data point
is `y = -10` and `showY0` off: the computed data minimum and maximum
both equal `-10`. -/
def envNegPoint : DrawEnv :=
  { baseColors := colorsOnlyRed
    lightnesses := lightnessesOnlyBright
    styles := stylesOnlyDash
    hslToHsv := fun c => c
    hsvToRgb := fun c => c
    hasTargets := false
    sources := [srcRed]
    targets := []
    getPlotPoints := fun _ _ => some ([1], [-10])
    showY0 := false
    showLegend := true }

/-- Environment with targets, one resolving and one miss source, and
successful plot-point calls. -/
def envTwoSources : DrawEnv :=
  { baseColors := colorsOnlyRed
    lightnesses := lightnessesOnlyBright
    styles := stylesOnlyDash
    hslToHsv := fun c => c
    hsvToRgb := fun c => c
    hasTargets := true
    sources := [srcRed, srcPink]
    targets := [tgtBright]
    getPlotPoints := fun _ _ => some ([1, 2], [3, 4])
    showY0 := false
    showLegend := true }

/-- Environment whose `getPlotPoints` always raises. -/
def envRaising : DrawEnv :=
  { baseColors := colorsOnlyRed
    lightnesses := lightnessesOnlyBright
    styles := stylesOnlyDash
    hslToHsv := fun c => c
    hsvToRgb := fun c => c
    hasTargets := false
    sources := [srcRed]
    targets := []
    getPlotPoints := fun _ _ => none
    showY0 := false
    showLegend := true }

/-- Environment with `showY0` set and no sources at all. -/
def envShowY0Empty : DrawEnv :=
  { baseColors := colorsOnlyRed
    lightnesses := lightnessesOnlyBright
    styles := stylesOnlyDash
    hslToHsv := fun c => c
    hsvToRgb := fun c => c
    hasTargets := false
    sources := []
    targets := []
    getPlotPoints := fun _ _ => some ([1], [2])
    showY0 := true
    showLegend := true }

end PyfaGraph

namespace PyfaImplant

/-- An implant of a fit: a market item ID, the implant slot it occupies
(the sort key), and whether it is active. -/
structure Implant where
  itemID : ℕ
  slot : ℕ
  active : Bool
deriving DecidableEq, Repr

/-- The two implant lists a fit exposes to the view: `fit.implants`
(bound to `self.original`) and `fit.appliedImplants` (bound to
`self.implants` and then sorted in place). -/
structure Fit where
  implants : List Implant
  appliedImplants : List Implant
deriving DecidableEq, Repr

/-- What `ImplantView` reads from its collaborators: the fitting
service's `getFit`, the main frame's `getActiveFit`, the truthiness of
`sFit.addImplant`, the column index of the State column, the widget's
row-to-item-data map `GetItemData`, and `GetFirstSelected`. -/
structure ViewEnv where
  getFit : Option ℕ → Option Fit
  activeFit : Option ℕ
  addImplantTrigger : Option ℕ → ℕ → Bool
  stateColIndex : ℕ
  itemData : ℕ → ℕ
  firstSelected : Option ℕ

/-- The view's own mutable attributes: `self.lastFitId`,
`self.original`, `self.implants`, and the list the widget currently
displays (what `populate` last received; `none` before any populate). -/
structure ViewState where
  lastFitId : Option ℕ
  original : Option (List Implant)
  implants : Option (List Implant)
  displayed : Option (List Implant)
deriving DecidableEq, Repr

/-- Model of `stuff.sort(key=lambda implant: implant.slot)`: a stable ascending
sort on the slot. -/
def sortBySlot (l : List Implant) : List Implant :=
  l.mergeSort (fun a b => decide (a.slot ≤ b.slot))

/-- A `FitChanged` notification: carries an optional fit ID. -/
structure FitChangedEvt where
  fitID : Option ℕ

/-- Method `ImplantView.fitChanged` as a state transformation: the early
return clears the display when the event's fit ID is `None` and a fit
was shown; otherwise rebind `original` to `fit.implants` and `implants`
to `fit.appliedImplants` sorted by slot, and populate the display with
the latter. -/
def fitChanged (env : ViewEnv) (st : ViewState) (ev : FitChangedEvt) : ViewState :=
  if ev.fitID = none ∧ st.lastFitId ≠ none then
    { st with lastFitId := none, displayed := some [] }
  else
    let fit := env.getFit ev.fitID
    let original := fit.map (fun f => f.implants)
    let implants := fit.map (fun f => sortBySlot f.appliedImplants)
    { lastFitId := ev.fitID, original := original, implants := implants,
      displayed := implants }

/-- Lookup `self.implants[self.GetItemData(row)]` — the implant a row's item
data designates; `none` models the `IndexError`/`TypeError` raised when
the list is missing or the index is out of range. -/
def targetedImplant (st : ViewState) (d : ℕ) : Option Implant :=
  st.implants.bind (fun l => l[d]?)

/-- An externally visible action of the implant view: a fitting-service
call, a posted `FitChanged` event, or the additions-pane selection. -/
inductive Action where
  | removeImplantCall (fitID : Option ℕ) (index : ℕ)
  | toggleImplantCall (fitID : Option ℕ) (row : ℕ)
  | addImplantCall (fitID : Option ℕ) (itemID : ℕ)
  | postFitChanged (fitID : Option ℕ)
  | selectImplantsPane
deriving DecidableEq, Repr

/-- Method `ImplantView.removeImplant`: call `sFit.removeImplant` with the
active fit ID and `self.original.index(implant)` (the first index of
the implant in the fit's unsorted `implants` list), then post
`FitChanged`.  A missing `original` list or an implant not in it raises
before any action happens. -/
def removeImplantActs (env : ViewEnv) (st : ViewState) (implant : Implant) :
    List Action :=
  match st.original with
  | none => []
  | some orig =>
    if implant ∈ orig then
      [Action.removeImplantCall env.activeFit (orig.indexOf implant),
       Action.postFitChanged env.activeFit]
    else []

/-- Method `ImplantView.removeItem` (double-click): hit-test the position; when
a row is hit and the clicked column is not the State column, remove the
implant the row's item data designates. -/
def removeItem (env : ViewEnv) (st : ViewState) (hitRow : Option ℕ) (col : ℕ) :
    List Action :=
  match hitRow with
  | none => []
  | some row =>
    if col ≠ env.stateColIndex then
      match targetedImplant st (env.itemData row) with
      | none => []
      | some imp => removeImplantActs env st imp
    else []

/-- Constant `wx.WXK_DELETE`. -/
def wxkDelete : ℕ := 127

/-- Constant `wx.WXK_NUMPAD_DELETE`. -/
def wxkNumpadDelete : ℕ := 385

/-- Method `ImplantView.kbEvent`: on Delete or Numpad-Delete, remove the
implant designated by the first selected row's item data (if any row is
selected). -/
def kbEvent (env : ViewEnv) (st : ViewState) (keycode : ℕ) : List Action :=
  if keycode = wxkDelete ∨ keycode = wxkNumpadDelete then
    match env.firstSelected with
    | none => []
    | some row =>
      match targetedImplant st (env.itemData row) with
      | none => []
      | some imp => removeImplantActs env st imp
  else []

/-- Method `ImplantView.click` (left button down): when the hit row's column
is the State column, call `sFit.toggleImplant` with the active fit ID
and the row index, then post `FitChanged`. -/
def click (env : ViewEnv) (st : ViewState) (hitRow : Option ℕ) (col : ℕ) :
    List Action :=
  match hitRow with
  | none => []
  | some row =>
    if col = env.stateColIndex then
      [Action.toggleImplantCall env.activeFit row,
       Action.postFitChanged env.activeFit]
    else []

/-- Method `ImplantView.addItem`: call `sFit.addImplant` with the active fit
ID and the event's item ID; when the result is truthy, post
`FitChanged` and select the Implants additions pane. -/
def addItem (env : ViewEnv) (itemID : ℕ) : List Action :=
  Action.addImplantCall env.activeFit itemID ::
    (if env.addImplantTrigger env.activeFit itemID then
      [Action.postFitChanged env.activeFit, Action.selectImplantsPane]
    else [])

/-! ### Concrete instances used to witness the theorems below -/

/-- Example implant in slot 3. -/
def impSlot3 : Implant := { itemID := 10, slot := 3, active := true }

/-- Example implant in slot 1. -/
def impSlot1 : Implant := { itemID := 11, slot := 1, active := true }

/-- Example fit holding the two implants, unsorted. -/
def fitEx : Fit :=
  { implants := [impSlot3, impSlot1], appliedImplants := [impSlot3, impSlot1] }

/-- Example environment: fit 7 is active and resolvable, the service
accepts additions, State is column 0, item data is the identity. -/
def viewEnvEx : ViewEnv :=
  { getFit := fun i => if i = some 7 then some fitEx else none
    activeFit := some 7
    addImplantTrigger := fun _ _ => true
    stateColIndex := 0
    itemData := fun r => r
    firstSelected := some 0 }

/-- Example view state as left by `fitChanged` on fit 7. -/
def viewStEx : ViewState :=
  { lastFitId := some 7
    original := some [impSlot3, impSlot1]
    implants := some [impSlot1, impSlot3]
    displayed := some [impSlot1, impSlot3] }

end PyfaImplant

/-!
## Theorems

Helper lemmas about the embedded operations, followed by one theorem
per claim (with a concrete witness instance where the theorem carries
hypotheses).
-/

namespace PyfaGraph

theorem drawLoop_cons_miss (env : DrawEnv) (s : SourceItem) (t : Option TargetItem)
    (rest : List (SourceItem × Option TargetItem)) (st : LoopState)
    (h : resolveStyle env s t = none) :
    drawLoop env ((s, t) :: rest) st = drawLoop env rest st := by
  simp [drawLoop, h]

theorem drawLoop_cons_fail (env : DrawEnv) (s : SourceItem) (t : Option TargetItem)
    (rest : List (SourceItem × Option TargetItem)) (st : LoopState)
    (c : Color) (ls : String)
    (h : resolveStyle env s t = some (c, ls)) (hp : env.getPlotPoints s t = none) :
    drawLoop env ((s, t) :: rest) st = (st, true) := by
  simp [drawLoop, h, hp]

theorem drawLoop_cons_ok (env : DrawEnv) (s : SourceItem) (t : Option TargetItem)
    (rest : List (SourceItem × Option TargetItem)) (st : LoopState)
    (c : Color) (ls : String) (xs ys : List ℚ)
    (h : resolveStyle env s t = some (c, ls))
    (hp : env.getPlotPoints s t = some (xs, ys)) :
    drawLoop env ((s, t) :: rest) st = drawLoop env rest
      { minY := updMin st.minY ys
        maxY := updMax st.maxY ys
        plots := st.plots ++
          [{ xs := xs, ys := ys, color := c, lineStyle := ls,
             marker := xs.length == 1 && ys.length == 1 }]
        lineData := st.lineData ++ [(c, ls, lineLabel s t)] } := by
  simp [drawLoop, h, hp]

theorem drawLoop_ok_append (env : DrawEnv)
    (pre rest : List (SourceItem × Option TargetItem)) (st : LoopState)
    (hok : ∀ q ∈ pre, (resolveStyle env q.1 q.2).isSome →
      (env.getPlotPoints q.1 q.2).isSome) :
    ∃ st', drawLoop env (pre ++ rest) st = drawLoop env rest st' ∧
      st'.plots = st.plots ++ pre.filterMap (styledPlot env) ∧
      st'.lineData = st.lineData ++ pre.filterMap (styledEntry env) := by
  induction pre generalizing st with
  | nil => exact ⟨st, by simp⟩
  | cons p pre ih =>
    obtain ⟨s, t⟩ := p
    have hok' : ∀ q ∈ pre, (resolveStyle env q.1 q.2).isSome →
        (env.getPlotPoints q.1 q.2).isSome :=
      fun q hq => hok q (List.mem_cons_of_mem _ hq)
    cases hrs : resolveStyle env s t with
    | none =>
      obtain ⟨st', h1, h2, h3⟩ := ih st hok'
      refine ⟨st', ?_, ?_, ?_⟩
      · rw [List.cons_append, drawLoop_cons_miss env s t _ st hrs]; exact h1
      · rw [h2]; simp [styledPlot, hrs]
      · rw [h3]; simp [styledEntry, hrs]
    | some cs =>
      obtain ⟨c, ls⟩ := cs
      obtain ⟨⟨xs, ys⟩, hps⟩ := Option.isSome_iff_exists.mp
        (hok (s, t) (List.mem_cons_self _ _) (by simp [hrs]))
      obtain ⟨st', h1, h2, h3⟩ := ih _ hok'
      refine ⟨st', ?_, ?_, ?_⟩
      · rw [List.cons_append, drawLoop_cons_ok env s t _ st c ls xs ys hrs hps]
        exact h1
      · rw [h2]; simp [styledPlot, hrs, hps]
      · rw [h3]; simp [styledEntry, hrs, hps]

theorem drawLoop_bounds (env : DrawEnv)
    (ps : List (SourceItem × Option TargetItem)) (st : LoopState)
    (hmin : ∃ m, st.minY = some m ∧ m ≤ 0)
    (hmax : ∃ M, st.maxY = some M ∧ 0 ≤ M) :
    (∃ m, (drawLoop env ps st).1.minY = some m ∧ m ≤ 0) ∧
    (∃ M, (drawLoop env ps st).1.maxY = some M ∧ 0 ≤ M) := by
  induction ps generalizing st with
  | nil => simpa [drawLoop] using ⟨hmin, hmax⟩
  | cons p ps ih =>
    obtain ⟨s, t⟩ := p
    cases hrs : resolveStyle env s t with
    | none => rw [drawLoop_cons_miss env s t ps st hrs]; exact ih st hmin hmax
    | some cs =>
      obtain ⟨c, ls⟩ := cs
      cases hps : env.getPlotPoints s t with
      | none =>
        rw [drawLoop_cons_fail env s t ps st c ls hrs hps]
        exact ⟨hmin, hmax⟩
      | some xy =>
        obtain ⟨xs, ys⟩ := xy
        rw [drawLoop_cons_ok env s t ps st c ls xs ys hrs hps]
        apply ih
        · obtain ⟨m, hm, hm0⟩ := hmin
          cases hv : ys.min? with
          | none => exact ⟨m, by simp [updMin, hm, hv], hm0⟩
          | some v =>
            exact ⟨min m v, by simp [updMin, hm, hv],
              le_trans (min_le_left _ _) hm0⟩
        · obtain ⟨M, hM, hM0⟩ := hmax
          cases hv : ys.max? with
          | none => exact ⟨M, by simp [updMax, hM, hv], hM0⟩
          | some v =>
            exact ⟨max M v, by simp [updMax, hM, hv],
              le_trans hM0 (le_max_left _ _)⟩

theorem padRange_nonpos_nonneg {m M : ℚ} (hm : m ≤ 0) (hM : 0 ≤ M) :
    (padRange m M).1 ≤ 0 ∧ 0 ≤ (padRange m M).2 := by
  simp only [padRange]
  split_ifs with h1 h2
  · constructor <;> linarith
  · constructor <;> linarith
  · constructor <;> linarith

end PyfaGraph

namespace PyfaGraph

theorem length_filterMap_congr {α β γ : Type _} (f : α → Option β) (g : α → Option γ)
    (h : ∀ a, (f a).isSome = (g a).isSome) : ∀ l : List α,
    (l.filterMap f).length = (l.filterMap g).length
  | [] => rfl
  | a :: l => by
    cases hf : f a <;> cases hg : g a <;>
      simp_all [List.filterMap_cons, length_filterMap_congr f g h l]
    · exact absurd (h a) (by simp [hf, hg])
    · exact absurd (h a) (by simp [hf, hg])

theorem styledPlot_isSome_eq (env : DrawEnv) (p : SourceItem × Option TargetItem) :
    (styledPlot env p).isSome = (styledEntry env p).isSome := by
  unfold styledPlot styledEntry
  cases hrs : resolveStyle env p.1 p.2 with
  | none => rfl
  | some cs =>
    obtain ⟨c, ls⟩ := cs
    cases hps : env.getPlotPoints p.1 p.2 with
    | none => rfl
    | some xy => obtain ⟨xs, ys⟩ := xy; rfl

theorem draw_no_fail (env : DrawEnv)
    (hok : ∀ p ∈ iterList env, (resolveStyle env p.1 p.2).isSome →
      (env.getPlotPoints p.1 p.2).isSome) :
    ∃ st', drawLoop env (iterList env) (initLoopState env) = (st', false) ∧
      draw env =
        { plots := st'.plots
          lineData := st'.lineData
          ylim := some (padRange (st'.minY.getD 0) (st'.maxY.getD 0))
          legendShown :=
            if 0 < st'.lineData.length ∧ env.showLegend then some st'.lineData
            else none
          canvasDrawn := true } ∧
      st'.plots = (iterList env).filterMap (styledPlot env) ∧
      st'.lineData = (iterList env).filterMap (styledEntry env) := by
  obtain ⟨st', h1, h2, h3⟩ :=
    drawLoop_ok_append env (iterList env) [] (initLoopState env) hok
  rw [List.append_nil] at h1
  have hdl : drawLoop env (iterList env) (initLoopState env) = (st', false) := by
    rw [h1]; rfl
  refine ⟨st', hdl, ?_, by simpa [initLoopState] using h2,
    by simpa [initLoopState] using h3⟩
  simp [draw, hdl]

end PyfaGraph

namespace PyfaGraph

/-- Claim C1: the claim asserts `bottom ≤ m`, `M ≤ top`, `bottom < top` for
the padded y-range.  Exhibit of the failing input: with a single data
point `y = -10` (computed minimum = maximum = `-10`, `showY0` off) the
code's fallback branch `min_y -= min_y * 0.05; max_y += min_y * 0.05`
uses the already-updated `min_y`, passing `set_ylim` the pair
`(-9.5, -10.475)`: bottom above the data and above top. -/
theorem c1_padding_inverts_range_on_negative_flat_data :
    padRange (-10) (-10) = (-19/2, -419/40) ∧
    (draw envNegPoint).ylim = some (-19/2, -419/40) ∧
    ¬ ((-19/2 : ℚ) ≤ -10) ∧ ¬ ((-19/2 : ℚ) < -419/40) := by
  refine ⟨by norm_num [padRange], ?_, by norm_num, by norm_num⟩
  simp [draw, iterList, drawLoop, resolveStyle, envNegPoint, srcRed, colorsOnlyRed,
    updMin, updMax, List.min?, List.max?, padRange, initLoopState]
  norm_num

/-- Claim C2: when no `getPlotPoints` call raises, `draw` iterates over
exactly the Cartesian product of sources and targets (resp. sources
paired with `None`), and every pair whose style resolves and whose
point call succeeds contributes exactly one plotted line and exactly
one legend entry. -/
theorem c2_one_plot_and_legend_entry_per_resolved_pair (env : DrawEnv)
    (hok : ∀ p ∈ iterList env, (resolveStyle env p.1 p.2).isSome →
      (env.getPlotPoints p.1 p.2).isSome) :
    (draw env).plots =
      (if env.hasTargets then
        env.sources.flatMap (fun s => env.targets.map (fun t => (s, some t)))
      else env.sources.map (fun s => (s, none))).filterMap (styledPlot env) ∧
    (draw env).lineData =
      (if env.hasTargets then
        env.sources.flatMap (fun s => env.targets.map (fun t => (s, some t)))
      else env.sources.map (fun s => (s, none))).filterMap (styledEntry env) ∧
    (draw env).plots.length = (draw env).lineData.length := by
  obtain ⟨st', hdl, hdraw, hp, hl⟩ := draw_no_fail env hok
  have h1 : (draw env).plots = (iterList env).filterMap (styledPlot env) := by
    rw [hdraw]; exact hp
  have h2 : (draw env).lineData = (iterList env).filterMap (styledEntry env) := by
    rw [hdraw]; exact hl
  refine ⟨?_, ?_, ?_⟩
  · rw [h1]; simp only [iterList]
  · rw [h2]; simp only [iterList]
  · rw [h1, h2]; exact length_filterMap_congr _ _ (styledPlot_isSome_eq env) _

/-- Witness for C2 at a concrete two-source environment. -/
theorem c2_one_plot_and_legend_entry_per_resolved_pair_witness :
    (draw envTwoSources).plots.length = (draw envTwoSources).lineData.length :=
  (c2_one_plot_and_legend_entry_per_resolved_pair envTwoSources
    (by intro p hp hs; simp [envTwoSources])).2.2

end PyfaGraph

namespace PyfaGraph

/-- Claim C3: style resolution is dictionary lookup with skip-on-miss: it
yields `none` exactly when `colorID` misses `BASE_COLORS` or, with a
target present, `lightnessID` misses `LIGHTNESSES` or `lineStyleID`
misses `STYLES`; on a hit the color is `hsv_to_rgb(hsl_to_hsv(...))` of
the (lightness-adjusted) looked-up HSL color and the style the
looked-up `mplSpec` (or `'solid'` without a target); on a miss the loop
step plots nothing and continues with the remaining pairs. -/
theorem c3_style_lookup_skip_on_miss (env : DrawEnv) (s : SourceItem)
    (t : Option TargetItem) (rest : List (SourceItem × Option TargetItem))
    (st : LoopState) :
    (resolveStyle env s t = none ↔
      env.baseColors s.colorID = none ∨
      ∃ tg, t = some tg ∧
        (env.lightnesses tg.lightnessID = none ∨
         env.styles tg.lineStyleID = none)) ∧
    (∀ c ls, resolveStyle env s t = some (c, ls) →
      ∃ cd, env.baseColors s.colorID = some cd ∧
        ((t = none ∧ c = env.hsvToRgb (env.hslToHsv cd.hsl) ∧ ls = "solid") ∨
         ∃ tg ld sd, t = some tg ∧ env.lightnesses tg.lightnessID = some ld ∧
           env.styles tg.lineStyleID = some sd ∧
           c = env.hsvToRgb (env.hslToHsv (ld.func cd.hsl)) ∧
           ls = sd.mplSpec)) ∧
    (resolveStyle env s t = none →
      drawLoop env ((s, t) :: rest) st = drawLoop env rest st) := by
  refine ⟨?_, ?_, fun h => drawLoop_cons_miss env s t rest st h⟩
  · cases hb : env.baseColors s.colorID with
    | none => cases t <;> simp [resolveStyle, hb]
    | some cd =>
      cases t with
      | none => simp [resolveStyle, hb]
      | some tg =>
        cases hl : env.lightnesses tg.lightnessID with
        | none => simp [resolveStyle, hb, hl]
        | some ld =>
          cases hsy : env.styles tg.lineStyleID with
          | none => simp [resolveStyle, hb, hl, hsy]
          | some sd => simp [resolveStyle, hb, hl, hsy]
  · intro c ls h
    cases hb : env.baseColors s.colorID with
    | none =>
      rw [show resolveStyle env s t = none from by
        cases t <;> simp [resolveStyle, hb]] at h
      exact absurd h (by simp)
    | some cd =>
      refine ⟨cd, rfl, ?_⟩
      cases t with
      | none =>
        rw [show resolveStyle env s none =
            some (env.hsvToRgb (env.hslToHsv cd.hsl), "solid") from by
          simp [resolveStyle, hb]] at h
        simp only [Option.some.injEq, Prod.mk.injEq] at h
        exact Or.inl ⟨rfl, h.1.symm, h.2.symm⟩
      | some tg =>
        cases hl : env.lightnesses tg.lightnessID with
        | none =>
          rw [show resolveStyle env s (some tg) = none from by
            simp [resolveStyle, hb, hl]] at h
          exact absurd h (by simp)
        | some ld =>
          cases hsy : env.styles tg.lineStyleID with
          | none =>
            rw [show resolveStyle env s (some tg) = none from by
              simp [resolveStyle, hb, hl, hsy]] at h
            exact absurd h (by simp)
          | some sd =>
            rw [show resolveStyle env s (some tg) =
                some (env.hsvToRgb (env.hslToHsv (ld.func cd.hsl)),
                  sd.mplSpec) from by
              simp [resolveStyle, hb, hl, hsy]] at h
            simp only [Option.some.injEq, Prod.mk.injEq] at h
            exact Or.inr ⟨tg, ld, sd, rfl, hl, hsy, h.1.symm, h.2.symm⟩

/-- Witness for C3: a `colorID` missing from `BASE_COLORS` resolves to
no style. -/
theorem c3_style_lookup_skip_on_miss_witness :
    resolveStyle envTwoSources srcPink none = none :=
  (c3_style_lookup_skip_on_miss envTwoSources srcPink none []
    (initLoopState envTwoSources)).1.mpr
    (Or.inl (by simp [envTwoSources, colorsOnlyRed, srcPink]))

/-- Claim C9: a raised `getPlotPoints` makes `draw` redraw the canvas and
return at once: `set_ylim` is never reached, no legend is created, and
only the pairs before the raising one are plotted. -/
theorem c9_exception_aborts_draw (env : DrawEnv)
    (pre post : List (SourceItem × Option TargetItem))
    (p : SourceItem × Option TargetItem)
    (hiter : iterList env = pre ++ p :: post)
    (hpre : ∀ q ∈ pre, (resolveStyle env q.1 q.2).isSome →
      (env.getPlotPoints q.1 q.2).isSome)
    (hstyle : (resolveStyle env p.1 p.2).isSome)
    (hfail : env.getPlotPoints p.1 p.2 = none) :
    (draw env).ylim = none ∧ (draw env).legendShown = none ∧
    (draw env).canvasDrawn = true ∧
    (draw env).plots = pre.filterMap (styledPlot env) ∧
    (draw env).lineData = pre.filterMap (styledEntry env) := by
  obtain ⟨⟨c, ls⟩, hcs⟩ := Option.isSome_iff_exists.mp hstyle
  obtain ⟨st', h1, h2, h3⟩ :=
    drawLoop_ok_append env pre (p :: post) (initLoopState env) hpre
  obtain ⟨s, t⟩ := p
  have habort : drawLoop env ((s, t) :: post) st' = (st', true) :=
    drawLoop_cons_fail env s t post st' c ls hcs hfail
  have hdl : drawLoop env (iterList env) (initLoopState env) = (st', true) := by
    rw [hiter, h1, habort]
  simp only [initLoopState, List.nil_append] at h2 h3
  simp [draw, hdl, h2, h3]

/-- Witness for C9 at an environment whose single point call raises. -/
theorem c9_exception_aborts_draw_witness : (draw envRaising).ylim = none :=
  (c9_exception_aborts_draw envRaising [] [] (srcRed, none)
    (by simp [iterList, envRaising])
    (by intro q hq; simp at hq)
    (by simp [resolveStyle, envRaising, colorsOnlyRed, srcRed])
    rfl).1

/-- Claim C10: with `showY0` set, any y-limits `draw` passes to
`set_ylim` bracket zero: the running bounds start at 0 and only widen,
and the padding moves each side outward or to the constants ±5. -/
theorem c10_showY0_zero_within_ylim (env : DrawEnv) (h0 : env.showY0 = true)
    (b t : ℚ) (hlim : (draw env).ylim = some (b, t)) :
    b ≤ 0 ∧ 0 ≤ t := by
  have hb := drawLoop_bounds env (iterList env) (initLoopState env)
    ⟨0, by simp [initLoopState, h0], le_refl 0⟩
    ⟨0, by simp [initLoopState, h0], le_refl 0⟩
  rcases hdl : drawLoop env (iterList env) (initLoopState env) with ⟨st, ab⟩
  rw [hdl] at hb
  obtain ⟨⟨m, hm, hm0⟩, ⟨M, hM, hM0⟩⟩ := hb
  cases ab with
  | true => simp [draw, hdl] at hlim
  | false =>
    have hpr : padRange (st.minY.getD 0) (st.maxY.getD 0) = (b, t) := by
      simpa [draw, hdl] using hlim
    rw [hm, hM] at hpr
    simp only [Option.getD_some] at hpr
    obtain ⟨h1, h2⟩ := padRange_nonpos_nonneg hm0 hM0
    rw [hpr] at h1 h2
    exact ⟨h1, h2⟩

/-- Witness for C10: empty sources with `showY0` give limits (-5, 5). -/
theorem c10_showY0_zero_within_ylim_witness : (-5 : ℚ) ≤ 0 ∧ (0 : ℚ) ≤ 5 :=
  c10_showY0_zero_within_ylim envShowY0Empty rfl (-5) 5
    (by norm_num [draw, iterList, drawLoop, envShowY0Empty, initLoopState, padRange])

end PyfaGraph

namespace PyfaGraph

theorem cacheClears_append (l1 l2 : List GFAction) :
    cacheClears (l1 ++ l2) = cacheClears l1 ++ cacheClears l2 := by
  induction l1 with
  | nil => rfl
  | cons a l ih => cases a <;> simp [cacheClears, ih]

theorem cacheClears_map_clear (r : CacheReason) (l : List ℕ) :
    cacheClears (l.map (fun i => GFAction.clearCache r (some i))) =
      l.map (fun i => (r, some i)) := by
  induction l with
  | nil => rfl
  | cons a l ih => simp [cacheClears, ih]

/-- Claim C8: each of the nine change-event handlers performs its cache
clears (exactly one per carried fit/profile ID, one ID-less clear for
option change and graph switch, none for the rename handlers) before a
final `draw()`, after which only event propagation remains. -/
theorem c8_handlers_clear_cache_then_redraw (fitIDs rmIDs : List ℕ) (fid pid : ℕ)
    (refreshAxes refreshCols : Bool) :
    handlerOk onFitRenamedHandler [] ∧
    handlerOk (onFitChangedHandler fitIDs)
      (fitIDs.map (fun i => (CacheReason.fitChanged, some i))) ∧
    handlerOk (onFitRemovedHandler fid) [(CacheReason.fitRemoved, some fid)] ∧
    handlerOk onProfileRenamedHandler [] ∧
    handlerOk (onProfileChangedHandler pid)
      [(CacheReason.profileChanged, some pid)] ∧
    handlerOk (onProfileRemovedHandler pid)
      [(CacheReason.profileRemoved, some pid)] ∧
    handlerOk (onResistModeChangedHandler rmIDs)
      (rmIDs.map (fun i => (CacheReason.resistModeChanged, some i))) ∧
    handlerOk (onGraphOptionChangedHandler refreshAxes refreshCols)
      [(CacheReason.optionChanged, none)] ∧
    handlerOk onGraphSwitchedHandler [(CacheReason.graphSwitched, none)] := by
  refine ⟨?_, ?_, ?_, ?_, ?_, ?_, ?_, ?_, ?_⟩
  · exact ⟨[.evtSkip, .panel .onFitRenamed], [], rfl, rfl, rfl, by simp⟩
  · refine ⟨.evtSkip :: fitIDs.map (fun i => .clearCache .fitChanged (some i)) ++
      [.panel .onFitChanged], [], ?_, ?_, ?_, by simp⟩ <;>
      simp [onFitChangedHandler, cacheClears, cacheClears_append,
        cacheClears_map_clear]
  · exact ⟨[.evtSkip, .clearCache .fitRemoved (some fid), .panel .onFitRemoved],
      [], rfl, rfl, rfl, by simp⟩
  · exact ⟨[.evtSkip, .panel .onProfileRenamed], [], rfl, rfl, rfl, by simp⟩
  · exact ⟨[.evtSkip, .clearCache .profileChanged (some pid),
      .panel .onProfileChanged], [], rfl, rfl, rfl, by simp⟩
  · exact ⟨[.evtSkip, .clearCache .profileRemoved (some pid),
      .panel .onProfileRemoved], [], rfl, rfl, rfl, by simp⟩
  · refine ⟨.evtSkip ::
      rmIDs.map (fun i => .clearCache .resistModeChanged (some i)) ++
      [.panel .onResistModeChanged], [], ?_, ?_, ?_, by simp⟩ <;>
      simp [onResistModeChangedHandler, cacheClears, cacheClears_append,
        cacheClears_map_clear]
  · refine ⟨[.evtSkip, .panel .panelFreeze] ++
      (if refreshAxes then [.panel .refreshAxeLabels] else []) ++
      (if refreshCols then [.panel .refreshColumns] else []) ++
      [.panel .panelThaw, .clearCache .optionChanged none], [], ?_, ?_, ?_,
      by simp⟩ <;>
      cases refreshAxes <;> cases refreshCols <;>
      simp [onGraphOptionChangedHandler, cacheClears, cacheClears_append]
  · exact ⟨[.saveSetting, .clearCache .graphSwitched none, .panel .updateControls],
      [.evtSkip], rfl, rfl, rfl, by simp [isSkip]⟩

/-- Witness for C8 at a concrete fit-changed event carrying one ID. -/
theorem c8_handlers_clear_cache_then_redraw_witness :
    handlerOk (onFitChangedHandler [3]) [(CacheReason.fitChanged, some 3)] :=
  (c8_handlers_clear_cache_then_redraw [3] [] 0 0 false false).2.1

end PyfaGraph

namespace PyfaImplant

/-- Claim C4: on a fit-changed notification resolving to an actual fit,
`fitChanged` rebinds `self.implants` to the applied-implant list sorted
ascending by slot, populates the display with exactly that list, and it
is that list which row item data later indexes. -/
theorem c4_fitChanged_sorts_applied_implants (env : ViewEnv) (st : ViewState)
    (ev : FitChangedEvt) (fid : ℕ) (fit : Fit)
    (hev : ev.fitID = some fid) (hfit : env.getFit (some fid) = some fit) :
    (fitChanged env st ev).implants = some (sortBySlot fit.appliedImplants) ∧
    (fitChanged env st ev).displayed = some (sortBySlot fit.appliedImplants) ∧
    (fitChanged env st ev).original = some fit.implants ∧
    (sortBySlot fit.appliedImplants).Pairwise (fun a b => a.slot ≤ b.slot) ∧
    (sortBySlot fit.appliedImplants).Perm fit.appliedImplants ∧
    ∀ d : ℕ, targetedImplant (fitChanged env st ev) d =
      (sortBySlot fit.appliedImplants)[d]? := by
  have h1 : fitChanged env st ev =
      { lastFitId := some fid
        original := some fit.implants
        implants := some (sortBySlot fit.appliedImplants)
        displayed := some (sortBySlot fit.appliedImplants) } := by
    simp [fitChanged, hev, hfit]
  have hsorted := @List.sorted_mergeSort Implant
    (fun a b => decide (a.slot ≤ b.slot))
    (fun a b c h1 h2 => by
      simp only [decide_eq_true_eq] at *; exact le_trans h1 h2)
    (fun a b => by simp [Nat.le_total])
    fit.appliedImplants
  refine ⟨by rw [h1], by rw [h1], by rw [h1], ?_,
    List.mergeSort_perm fit.appliedImplants _, fun d => by
      rw [h1]; simp [targetedImplant]⟩
  exact hsorted.imp (fun h => by simpa using h)

/-- Witness for C4 at a concrete environment and two-implant fit. -/
theorem c4_fitChanged_sorts_applied_implants_witness :
    (fitChanged viewEnvEx viewStEx { fitID := some 7 }).implants =
      some (sortBySlot fitEx.appliedImplants) :=
  (c4_fitChanged_sorts_applied_implants viewEnvEx viewStEx { fitID := some 7 }
    7 fitEx rfl (by decide)).1

/-- Claim C5: a double-click on a non-State column of a row, and a
Delete/Numpad-Delete press with a row selected, both call the service's
`removeImplant` with the active fit ID and the first index of the
targeted implant in the fit's original (unsorted) `implants` list, then
post `FitChanged`; a double-click on the State column or outside any
row does nothing. -/
theorem c5_remove_uses_original_index (env : ViewEnv) (st : ViewState)
    (row : ℕ) (orig : List Implant) (imp : Implant)
    (horig : st.original = some orig)
    (himp : targetedImplant st (env.itemData row) = some imp)
    (hmem : imp ∈ orig) :
    (∀ col, col ≠ env.stateColIndex →
      removeItem env st (some row) col =
        [Action.removeImplantCall env.activeFit (orig.indexOf imp),
         Action.postFitChanged env.activeFit]) ∧
    orig[orig.indexOf imp]? = some imp ∧
    removeItem env st (some row) env.stateColIndex = [] ∧
    (∀ col, removeItem env st none col = []) ∧
    (∀ keycode, (keycode = wxkDelete ∨ keycode = wxkNumpadDelete) →
      env.firstSelected = some row →
      kbEvent env st keycode =
        [Action.removeImplantCall env.activeFit (orig.indexOf imp),
         Action.postFitChanged env.activeFit]) := by
  refine ⟨?_, List.getElem?_indexOf hmem, ?_, fun col => rfl, ?_⟩
  · intro col hcol
    simp [removeItem, hcol, himp, removeImplantActs, horig, hmem]
  · simp [removeItem]
  · intro keycode hk hsel
    rw [kbEvent, if_pos hk, hsel]
    simp [himp, removeImplantActs, horig, hmem]

/-- Witness for C5: removing the first displayed (lowest-slot) implant
reports its index in the unsorted original list. -/
theorem c5_remove_uses_original_index_witness :
    removeItem viewEnvEx viewStEx (some 0) 1 =
      [Action.removeImplantCall (some 7) ([impSlot3, impSlot1].indexOf impSlot1),
       Action.postFitChanged (some 7)] :=
  (c5_remove_uses_original_index viewEnvEx viewStEx 0 [impSlot3, impSlot1]
    impSlot1 rfl rfl (by decide)).1 1 (by decide)

/-- Claim C6: a left click on a row's State-column cell toggles the
implant via the service (active fit ID, row index) and posts
`FitChanged`; clicks on other columns or outside any row do neither. -/
theorem c6_click_state_column_toggles (env : ViewEnv) (st : ViewState) (row : ℕ) :
    click env st (some row) env.stateColIndex =
      [Action.toggleImplantCall env.activeFit row,
       Action.postFitChanged env.activeFit] ∧
    (∀ col, col ≠ env.stateColIndex → click env st (some row) col = []) ∧
    (∀ col, click env st none col = []) :=
  ⟨by simp [click], fun col h => by simp [click, h], fun col => rfl⟩

/-- Witness for C6 at the concrete environment (State is column 0). -/
theorem c6_click_state_column_toggles_witness :
    click viewEnvEx viewStEx (some 2) 0 =
      [Action.toggleImplantCall (some 7) 2, Action.postFitChanged (some 7)] :=
  (c6_click_state_column_toggles viewEnvEx viewStEx 2).1

/-- Claim C7: `addItem` always calls the service's `addImplant` with the
active fit ID and the event's item ID, posts `FitChanged` exactly when
the call returns a truthy result, and performs nothing beyond the
service call, the event post, and the pane selection. -/
theorem c7_addItem_delegates (env : ViewEnv) (itemID : ℕ) :
    (addItem env itemID).head? =
      some (Action.addImplantCall env.activeFit itemID) ∧
    (Action.postFitChanged env.activeFit ∈ addItem env itemID ↔
      env.addImplantTrigger env.activeFit itemID = true) ∧
    ∀ a ∈ addItem env itemID,
      a = Action.addImplantCall env.activeFit itemID ∨
      a = Action.postFitChanged env.activeFit ∨
      a = Action.selectImplantsPane := by
  unfold addItem
  cases htr : env.addImplantTrigger env.activeFit itemID <;> simp

/-- Witness for C7: a truthy service result posts `FitChanged`. -/
theorem c7_addItem_delegates_witness :
    Action.postFitChanged (some 7) ∈ addItem viewEnvEx 42 :=
  (c7_addItem_delegates viewEnvEx 42).2.1.mpr rfl

end PyfaImplant
